import Mathlib

/-!
Verification of the backend bootstrap shim declared in `src/include/bindings.h`
of the river compositor.  The header declares two forwarding entry points into
the external wlroots backend library:

  struct wlr_backend *river_wlr_backend_autocreate(struct wl_display *display);
  struct wlr_renderer *river_wlr_backend_get_renderer(struct wlr_backend *backend);

The bodies of the two shim functions and the wlroots library itself are not
part of the supplied sources, so the behavioural model below is built from the
specification's boundary contract: handles are natural-number addresses with 0
as the null handle, the library's state records which backends are live and
which renderer each backend received at creation time, and failure is an
`Option.none` result.  The header text itself (declarations and include guard)
is embedded syntactically at the end of the development.
-/

namespace River

/-- Observable state of the external wlroots library at the shim boundary:
whether the runtime environment offers at least one usable backend, the next
fresh handle address the library will hand out, the list of live backend
handles, and the renderer associated with each backend at creation time. -/
structure LibState where
  usable : Bool
  nextAddr : Nat
  backends : List Nat
  renderers : List (Nat × Nat)
deriving DecidableEq

/-- Association lookup used by the model for the renderer attached to a
backend handle; `none` models an invalid (unknown) backend handle. -/
def findRenderer (b : Nat) : List (Nat × Nat) → Option Nat
  | [] => none
  | (k, r) :: rest => if b = k then some r else findRenderer b rest

/-- Modelled from the spec: `wlr_backend_autocreate` of the external wlroots
library, whose code is not in the supplied sources.  It probes the runtime
environment and, given a non-null display in an environment with a usable
backend, creates a fresh backend together with its renderer; otherwise it
returns a null result and leaves the library state unchanged. -/
def wlr_backend_autocreate (s : LibState) (display : Nat) :
    Option Nat × LibState :=
  if display ≠ 0 ∧ s.usable = true then
    (some s.nextAddr,
      { s with
          nextAddr := s.nextAddr + 2,
          backends := s.nextAddr :: s.backends,
          renderers := (s.nextAddr, s.nextAddr + 1) :: s.renderers })
  else (none, s)

/-- Modelled from the spec: `wlr_backend_get_renderer` of the external wlroots
library, whose code is not in the supplied sources.  It retrieves the renderer
already associated with the backend at creation time, constructs nothing, and
leaves all state unchanged; an unknown handle yields `none`, the model's
marker for the undefined behaviour of an invalid handle. -/
def wlr_backend_get_renderer (s : LibState) (backend : Nat) :
    Option Nat × LibState :=
  (findRenderer backend s.renderers, s)

/-- Modelled from the spec: the body of `river_wlr_backend_autocreate`, whose
defining translation unit is not in the supplied sources (only the declaration
in `src/include/bindings.h` is).  The spec describes it as a thin forwarding
call with no added logic, recovery, retry or logging of its own. -/
def river_wlr_backend_autocreate (s : LibState) (display : Nat) :
    Option Nat × LibState :=
  wlr_backend_autocreate s display

/-- Modelled from the spec: the body of `river_wlr_backend_get_renderer`,
whose defining translation unit is not in the supplied sources (only the
declaration in `src/include/bindings.h` is).  The spec describes it as a thin
forwarding call with no added logic of its own. -/
def river_wlr_backend_get_renderer (s : LibState) (backend : Nat) :
    Option Nat × LibState :=
  wlr_backend_get_renderer s backend

/-- Well-formedness of a library state: handle addresses are non-null and
every live backend has an associated renderer. -/
def LibState.WF (s : LibState) : Prop :=
  0 < s.nextAddr ∧
    ∀ b ∈ s.backends, (findRenderer b s.renderers).isSome = true

instance (s : LibState) : Decidable s.WF :=
  inferInstanceAs
    (Decidable (0 < s.nextAddr ∧
      ∀ b ∈ s.backends, (findRenderer b s.renderers).isSome = true))

/-- A renderer is accessible for handle `b` in state `s` when the library has
a renderer associated with `b`. -/
def rendererAccessible (s : LibState) (b : Nat) : Prop :=
  (findRenderer b s.renderers).isSome = true

instance (s : LibState) (b : Nat) : Decidable (rendererAccessible s b) :=
  inferInstanceAs (Decidable ((findRenderer b s.renderers).isSome = true))

/-- Initial library state: no backend has been created yet; `usable` records
whether the environment offers a usable backend. -/
def init (usable : Bool) : LibState :=
  { usable := usable, nextAddr := 1, backends := [], renderers := [] }

/-- One observable step at the shim boundary: a call to one of the two shim
entry points, which transforms the library state. -/
inductive Step : LibState → LibState → Prop
  | create (s : LibState) (d : Nat) :
      Step s (river_wlr_backend_autocreate s d).2
  | getRenderer (s : LibState) (b : Nat) :
      Step s (river_wlr_backend_get_renderer s b).2

/-- States reachable from a starting state by shim calls. -/
inductive Reachable (s0 : LibState) : LibState → Prop
  | refl : Reachable s0 s0
  | step {s t : LibState} : Reachable s0 s → Step s t → Reachable s0 t

/-- Lifecycle invariant: every renderer association points at a live backend
handle. -/
def LibState.Inv (s : LibState) : Prop :=
  ∀ b r : Nat, (b, r) ∈ s.renderers → b ∈ s.backends

theorem autocreate_snd (s : LibState) (d : Nat) :
    (river_wlr_backend_autocreate s d).2 =
      if d ≠ 0 ∧ s.usable = true then
        { s with
            nextAddr := s.nextAddr + 2,
            backends := s.nextAddr :: s.backends,
            renderers := (s.nextAddr, s.nextAddr + 1) :: s.renderers }
      else s := by
  unfold river_wlr_backend_autocreate wlr_backend_autocreate
  by_cases hc : d ≠ 0 ∧ s.usable = true <;> simp [hc]

theorem findRenderer_isSome_mem {b : Nat} {l : List (Nat × Nat)}
    (h : (findRenderer b l).isSome = true) : ∃ r, (b, r) ∈ l := by
  induction l with
  | nil => simp [findRenderer] at h
  | cons p t ih =>
    obtain ⟨k, v⟩ := p
    by_cases hk : b = k
    · subst hk
      exact ⟨v, List.mem_cons_self _ _⟩
    · simp only [findRenderer, if_neg hk] at h
      obtain ⟨r, hr⟩ := ih h
      exact ⟨r, List.mem_cons_of_mem _ hr⟩

theorem step_preserves_inv {s t : LibState} (hst : Step s t) (hinv : s.Inv) :
    t.Inv := by
  cases hst with
  | getRenderer b => exact hinv
  | create d =>
    intro b r hbr
    rw [autocreate_snd] at hbr ⊢
    by_cases hc : d ≠ 0 ∧ s.usable = true
    · rw [if_pos hc] at hbr ⊢
      rcases List.mem_cons.mp hbr with h | h
      · injection h with h1 h2
        subst h1
        exact List.mem_cons_self _ _
      · exact List.mem_cons_of_mem _ (hinv b r h)
    · rw [if_neg hc] at hbr ⊢
      exact hinv b r hbr

theorem reachable_inv {u : Bool} {s : LibState}
    (h : Reachable (init u) s) : s.Inv := by
  induction h with
  | refl => intro b r hbr; simp [init] at hbr
  | step _ hs ih => exact step_preserves_inv hs ih

/-- Claim C1: for every valid (non-null) display handle, in a well-formed
library state whose environment has at least one usable backend,
`river_wlr_backend_autocreate` returns a non-null backend handle. -/
theorem create_backend_nonnull (s : LibState) (d : Nat) (hwf : s.WF)
    (hd : d ≠ 0) (hu : s.usable = true) :
    (river_wlr_backend_autocreate s d).1.isSome = true ∧
      (river_wlr_backend_autocreate s d).1 ≠ some 0 := by
  have hc : d ≠ 0 ∧ s.usable = true := ⟨hd, hu⟩
  unfold river_wlr_backend_autocreate wlr_backend_autocreate
  rw [if_pos hc]
  have hpos := hwf.1
  refine ⟨rfl, ?_⟩
  intro hcontra
  have h0 : s.nextAddr = 0 := Option.some.inj hcontra
  omega

/-- Witness for C1 at the initial usable state and display handle 1. -/
theorem create_backend_nonnull_witness :
    (river_wlr_backend_autocreate (init true) 1).1.isSome = true ∧
      (river_wlr_backend_autocreate (init true) 1).1 ≠ some 0 :=
  create_backend_nonnull (init true) 1 (by decide) (by decide) rfl

/-- Claim C2: in every environment with no usable backend,
`river_wlr_backend_autocreate` signals failure by returning the null result
`none` — a plain return value, not an exception-like mechanism — and leaves
the library state untouched. -/
theorem create_backend_failure (s : LibState) (d : Nat)
    (hu : s.usable = false) :
    (river_wlr_backend_autocreate s d).1 = none ∧
      (river_wlr_backend_autocreate s d).2 = s := by
  unfold river_wlr_backend_autocreate wlr_backend_autocreate
  simp [hu]

/-- Witness for C2 at the initial unusable state and display handle 1. -/
theorem create_backend_failure_witness :
    (river_wlr_backend_autocreate (init false) 1).1 = none ∧
      (river_wlr_backend_autocreate (init false) 1).2 = init false :=
  create_backend_failure (init false) 1 rfl

/-- Claim C3: for every backend handle successfully returned by
`river_wlr_backend_autocreate`, calling `river_wlr_backend_get_renderer` on
it immediately afterwards returns a non-null renderer handle. -/
theorem get_renderer_after_create (s : LibState) (d b : Nat)
    (h : (river_wlr_backend_autocreate s d).1 = some b) :
    (river_wlr_backend_get_renderer
        (river_wlr_backend_autocreate s d).2 b).1.isSome = true ∧
      (river_wlr_backend_get_renderer
        (river_wlr_backend_autocreate s d).2 b).1 ≠ some 0 := by
  by_cases hc : d ≠ 0 ∧ s.usable = true
  · unfold river_wlr_backend_autocreate wlr_backend_autocreate at h ⊢
    rw [if_pos hc] at h ⊢
    have hb : b = s.nextAddr := (Option.some.inj h).symm
    subst hb
    unfold river_wlr_backend_get_renderer wlr_backend_get_renderer
    simp [findRenderer]
  · unfold river_wlr_backend_autocreate wlr_backend_autocreate at h
    rw [if_neg hc] at h
    simp at h

/-- Witness for C3: creating from the initial usable state with display 1
yields backend handle 1, whose renderer is non-null. -/
theorem get_renderer_after_create_witness :
    (river_wlr_backend_get_renderer
        (river_wlr_backend_autocreate (init true) 1).2 1).1.isSome = true ∧
      (river_wlr_backend_get_renderer
        (river_wlr_backend_autocreate (init true) 1).2 1).1 ≠ some 0 :=
  get_renderer_after_create (init true) 1 1 (by decide)

/-- Claim C4: each shim operation is observably equal to the corresponding
underlying library call on every input — the shim forwards the library's
auto-detection and its success/failure result verbatim, with no recovery,
retry or logging of its own. -/
theorem shim_forwards_verbatim :
    (∀ (s : LibState) (d : Nat),
        river_wlr_backend_autocreate s d = wlr_backend_autocreate s d) ∧
      ∀ (s : LibState) (b : Nat),
        river_wlr_backend_get_renderer s b = wlr_backend_get_renderer s b :=
  ⟨fun _ _ => rfl, fun _ _ => rfl⟩

/-- Claim C5: `river_wlr_backend_get_renderer` is stable — two successive
calls with the same backend handle, with no intervening destruction, return
the same renderer. -/
theorem get_renderer_stable (s : LibState) (b : Nat) :
    (river_wlr_backend_get_renderer s b).1 =
      (river_wlr_backend_get_renderer
        (river_wlr_backend_get_renderer s b).2 b).1 :=
  rfl

/-- Claim C6: `river_wlr_backend_get_renderer` is a pure accessor — it leaves
the library state (and hence the backend and everything else) unchanged. -/
theorem get_renderer_pure (s : LibState) (b : Nat) :
    (river_wlr_backend_get_renderer s b).2 = s :=
  rfl

/-- Claim C7: under the precondition that the argument is a live backend
handle in a well-formed state, `river_wlr_backend_get_renderer` has no
reachable error branch: it always yields a renderer. -/
theorem get_renderer_no_failure (s : LibState) (b : Nat) (hwf : s.WF)
    (hb : b ∈ s.backends) :
    (river_wlr_backend_get_renderer s b).1.isSome = true :=
  hwf.2 b hb

/-- Witness for C7 at the state obtained by one successful creation. -/
theorem get_renderer_no_failure_witness :
    (river_wlr_backend_get_renderer
        (river_wlr_backend_autocreate (init true) 1).2 1).1.isSome = true :=
  get_renderer_no_failure (river_wlr_backend_autocreate (init true) 1).2 1
    (by decide) (by decide)

/-- Claim C8: lifecycle — in every state reachable from the initial state by
shim calls, a renderer is accessible for a handle only if that handle is a
live, created backend, and no renderer is accessible before any
`create_backend` transition has happened. -/
theorem backend_lifecycle (u : Bool) (s : LibState)
    (h : Reachable (init u) s) (b : Nat)
    (hacc : rendererAccessible s b) :
    b ∈ s.backends ∧ ¬ rendererAccessible (init u) b := by
  constructor
  · obtain ⟨r, hr⟩ := findRenderer_isSome_mem hacc
    exact reachable_inv h b r hr
  · simp [rendererAccessible, init, findRenderer]

/-- Witness for C8 at the state reached by one successful creation. -/
theorem backend_lifecycle_witness :
    1 ∈ (river_wlr_backend_autocreate (init true) 1).2.backends ∧
      ¬ rendererAccessible (init true) 1 :=
  backend_lifecycle true (river_wlr_backend_autocreate (init true) 1).2
    (Reachable.step Reachable.refl (Step.create (init true) 1)) 1 (by decide)

/-- Names of the externally defined structs referenced by the header. -/
inductive CStructName where
  | wl_display
  | wlr_backend
  | wlr_renderer
deriving DecidableEq

/-- C types occurring at the shim boundary: a pointer to an externally
defined struct, or some other (non-pointer, non-native) type. -/
inductive CType where
  | structPointer : CStructName → CType
  | otherType : CType
deriving DecidableEq

/-- Names of the functions declared by the header. -/
inductive CFunName where
  | river_wlr_backend_autocreate
  | river_wlr_backend_get_renderer
deriving DecidableEq

/-- A C function prototype: return type, name, parameter types. -/
structure CFunDecl where
  retType : CType
  name : CFunName
  params : List CType
deriving DecidableEq

/-- Kinds of top-level items a header could contribute to a translation
unit: a function declaration, a global variable declaration, or a new
struct definition. -/
inductive HeaderItem where
  | funDecl : CFunDecl → HeaderItem
  | globalVarDecl : CType → HeaderItem
  | structDefinition : CStructName → HeaderItem
deriving DecidableEq

/-- Tests whether a header item is a plain function declaration. -/
def HeaderItem.isFunDecl : HeaderItem → Bool
  | HeaderItem.funDecl _ => true
  | _ => false

/-- Tests whether a function-declaration item mentions only types drawn from
the given list, in its return type and in every parameter. -/
def HeaderItem.usesOnlyTypes (ts : List CType) : HeaderItem → Bool
  | HeaderItem.funDecl f =>
      ts.contains f.retType && f.params.all (fun t => ts.contains t)
  | _ => false

/-- Line 11 of `src/include/bindings.h`:
`struct wlr_backend *river_wlr_backend_autocreate(struct wl_display *);` -/
def riverAutocreateDecl : CFunDecl :=
  { retType := CType.structPointer CStructName.wlr_backend,
    name := CFunName.river_wlr_backend_autocreate,
    params := [CType.structPointer CStructName.wl_display] }

/-- Line 12 of `src/include/bindings.h`:
`struct wlr_renderer *river_wlr_backend_get_renderer(struct wlr_backend *);` -/
def riverGetRendererDecl : CFunDecl :=
  { retType := CType.structPointer CStructName.wlr_renderer,
    name := CFunName.river_wlr_backend_get_renderer,
    params := [CType.structPointer CStructName.wlr_backend] }

/-- The items between the include guard of `src/include/bindings.h`: exactly
the two function prototypes, nothing else. -/
def bindingsHeaderBody : List HeaderItem :=
  [HeaderItem.funDecl riverAutocreateDecl,
   HeaderItem.funDecl riverGetRendererDecl]

/-- One textual inclusion of `src/include/bindings.h` as the C preprocessor
performs it: given whether the macro RIVER_BINDINGS_H is already defined, it
contributes the header body and defines the macro, or contributes nothing
(the `#ifndef` / `#define` / `#endif` guard on lines 1, 2 and 14). -/
def processBindingsHeader (guardDefined : Bool) : List HeaderItem × Bool :=
  if guardDefined then ([], true) else (bindingsHeaderBody, true)

/-- Including `src/include/bindings.h` `n` times in a row in one translation
unit, starting from a given guard-macro state; returns the concatenated
contributed items and the final guard state. -/
def includeBindingsHeader : Nat → Bool → List HeaderItem × Bool
  | 0, g => ([], g)
  | n + 1, g =>
      let once := processBindingsHeader g
      let rest := includeBindingsHeader n once.2
      (once.1 ++ rest.1, rest.2)

theorem includeBindingsHeader_defined (n : Nat) :
    includeBindingsHeader n true = ([], true) := by
  induction n with
  | zero => rfl
  | succ m ih => simp [includeBindingsHeader, processBindingsHeader, ih]

/-- Claim C9: including the header any positive number of times in a
translation unit is the same as including it once, and yields exactly one
copy of the two declarations (the RIVER_BINDINGS_H guard is idempotent). -/
theorem include_guard_idempotent (n : Nat) (h : 1 ≤ n) :
    includeBindingsHeader n false = includeBindingsHeader 1 false ∧
      (includeBindingsHeader n false).1 = bindingsHeaderBody := by
  obtain ⟨m, rfl⟩ : ∃ m, n = m + 1 := ⟨n - 1, by omega⟩
  simp [includeBindingsHeader, processBindingsHeader,
    includeBindingsHeader_defined]

/-- Witness for C9 at three inclusions. -/
theorem include_guard_idempotent_witness :
    includeBindingsHeader 3 false = includeBindingsHeader 1 false ∧
      (includeBindingsHeader 3 false).1 = bindingsHeaderBody :=
  include_guard_idempotent 3 (by decide)

/-- The three native wlroots/wayland pointer types the header traffics in. -/
def nativePointerTypes : List CType :=
  [CType.structPointer CStructName.wl_display,
   CType.structPointer CStructName.wlr_backend,
   CType.structPointer CStructName.wlr_renderer]

/-- Claim C10: the header is stateless and introduces no types of its own —
every item it contributes is a function declaration (no global variables, no
struct definitions), and each declaration's return and parameter types are
exactly the external library's native struct-pointer types. -/
theorem header_stateless_native_types :
    bindingsHeaderBody.all
      (fun item =>
        item.isFunDecl &&
          HeaderItem.usesOnlyTypes nativePointerTypes item) = true := by
  decide

end River
